import Mathlib

/-!
Shallow embedding of the readiness-pipeline subsystem of the
`petrarca/python-api-server` repository
(`src/api_server/readiness_pipeline/`): enums, result models, the
check executor, the result processor, stage execution, the pipeline
executor, the result calculator, the pipeline facade, and the builder.

Conventions of the embedding:
* Python exceptions are modelled with `Except PyExc`; a function that can
  let an exception escape returns `Except PyExc α`.
* Wall-clock values (`arrow.utcnow()`, `time.time()`) are abstracted:
  functions that stamp timestamps take the stamped values as parameters,
  and stage/pipeline level timing fields are left unset (`none`), since no
  verified property concerns clock readings.
* A check's `_execute` body is modelled by the `behavior` field: the
  outcome the body produces when invoked (a result, or a raised
  exception).  The ghost field `execute_calls` counts invocations of the
  body, so that "the body was never invoked" is expressible.
* Python's f-strings are written as explicit string appends with the same
  text; `\x27` is the single-quote character appearing in those f-strings.
* Python `str.lower` / the `in` substring test are modelled by
  `pyLowerStr` / `strContains` on the underlying character lists.
-/

namespace ReadinessPipelineModel

/-- Model of `CheckStatus` from `enums.py`. -/
inductive CheckStatus where
  | pending
  | running
  | success
  | warning
  | failed
  | skipped
  | skipStage
  | notApplicable
deriving DecidableEq

/-- Model of `ServerState` from `enums.py`. -/
inductive ServerState where
  | starting
  | checking
  | operational
  | degraded
  | error
deriving DecidableEq

/-- Python exception classes that play a role in the pipeline's
`try/except` clauses.  `keyError` and `zeroDivisionError` stand for the
(many) exception classes that are *not* in the tuple caught by
`CheckExecutor.execute_single_check`. -/
inductive ExcType where
  | valueError
  | typeError
  | runtimeError
  | attributeError
  | keyError
  | zeroDivisionError
deriving DecidableEq

/-- Model of `type(e).__name__` for the modelled exception classes. -/
def ExcType.pyName : ExcType → String
  | .valueError => "ValueError"
  | .typeError => "TypeError"
  | .runtimeError => "RuntimeError"
  | .attributeError => "AttributeError"
  | .keyError => "KeyError"
  | .zeroDivisionError => "ZeroDivisionError"

/-- A raised Python exception: its class and its `str(e)` text. -/
structure PyExc where
  ty : ExcType
  msg : String
deriving DecidableEq

/-- Model of `ReadinessCheckResult` from `models.py`.  `details` is modelled as an
association list of string keys to string values (the only values the
verified properties inspect are strings). -/
structure ReadinessCheckResult where
  status : CheckStatus
  message : String
  details : List (String × String) := []
  check_name : String
  stage_name : Option String := none
  executed_at : Option String := none
  execution_time_ms : Option Nat := none
  run_once : Bool := false
deriving DecidableEq

instance instDecEqExcept {ε α : Type} [DecidableEq ε] [DecidableEq α] :
    DecidableEq (Except ε α) := fun a b =>
  match a, b with
  | .error e, .error f =>
    if h : e = f then .isTrue (congrArg Except.error h)
    else .isFalse (fun hc => h (Except.error.inj hc))
  | .ok x, .ok y =>
    if h : x = y then .isTrue (congrArg Except.ok h)
    else .isFalse (fun hc => h (Except.ok.inj hc))
  | .error _, .ok _ => .isFalse (fun hc => Except.noConfusion hc)
  | .ok _, .error _ => .isFalse (fun hc => Except.noConfusion hc)

/-- Model of `ReadinessCheck` from `base.py`.  `behavior` models the abstract
`_execute` body: the outcome it produces when invoked.  `executed_once`
and `last_result` are the `_executed_once` / `_last_result` cache fields.
`execute_calls` is a ghost counter of `_execute` invocations (it mirrors
no Python field; it only makes "the body was not invoked" observable). -/
structure ReadinessCheck where
  name : String
  is_critical : Bool := false
  run_once : Bool := false
  behavior : Except PyExc ReadinessCheckResult
  executed_once : Bool := false
  last_result : Option ReadinessCheckResult := none
  execute_calls : Nat := 0
deriving DecidableEq

/-- The non-cache path of `ReadinessCheck.run`: invoke `_execute`, and if
`run_once`, store the result in the cache. -/
def runFreshCheck (c : ReadinessCheck) :
    Except PyExc (ReadinessCheckResult × ReadinessCheck) :=
  let c1 : ReadinessCheck := { c with execute_calls := c.execute_calls + 1 }
  match c.behavior with
  | .error e => .error e
  | .ok r =>
    if c1.run_once then
      .ok (r, { c1 with executed_once := true, last_result := some r })
    else
      .ok (r, c1)

/-- Model of `ReadinessCheck.run` from `base.py`: if `run_once` and already
executed with a cached result and not forced, return the cached result
unchanged; otherwise execute and (when `run_once`) cache. -/
def ReadinessCheck.run (c : ReadinessCheck) (forceRerun : Bool) :
    Except PyExc (ReadinessCheckResult × ReadinessCheck) :=
  if !forceRerun && c.run_once && c.executed_once then
    match c.last_result with
    | some r => .ok (r, c)
    | none => runFreshCheck c
  else
    runFreshCheck c

/-- Model of `ReadinessCheck.reset` from `base.py`. -/
def ReadinessCheck.reset (c : ReadinessCheck) : ReadinessCheck :=
  { c with executed_once := false, last_result := none }

/-- The tuple of exception classes caught by
`CheckExecutor.execute_single_check`
(`except (ValueError, TypeError, RuntimeError, AttributeError)`). -/
def caughtByExecutor : ExcType → Bool
  | .valueError => true
  | .typeError => true
  | .runtimeError => true
  | .attributeError => true
  | _ => false

/-- Model of `CheckExecutor._handle_check_exception` from `check_executor.py`:
convert a caught exception into a `FAILED` result.  `elapsedMs` is the
measured execution time up to the failure point and `executedAt` the
timestamp, both abstracted as parameters. -/
def handleCheckException (check : ReadinessCheck) (e : PyExc)
    (elapsedMs : Nat) (executedAt : String) (stageName : String) :
    ReadinessCheckResult :=
  { status := .failed
    message := "Check execution failed: " ++ e.msg
    check_name := check.name
    stage_name := some stageName
    execution_time_ms := some elapsedMs
    executed_at := some executedAt
    details := [("exception", e.msg), ("type", e.ty.pyName)] }

/-- Model of `CheckExecutor.execute_single_check` from `check_executor.py`: run the
check, stamp timing/timestamp/stage-name on the result, and convert an
exception of one of the four caught classes into a `FAILED` result; any
other exception propagates.  The check's `run_once` cache replay inside
`run()` is modelled separately (`ReadinessCheck.run`); here the outcome of
one execution is read off `check.behavior`, since a cache hit replays a
result with the same payload fields and the stamps are overwritten below
in either case. -/
def executeSingleCheck (check : ReadinessCheck) (stageName : String)
    (executedAt : String) (elapsedMs : Nat) :
    Except PyExc ReadinessCheckResult :=
  match check.behavior with
  | .ok r =>
    .ok { r with
            executed_at := some executedAt
            execution_time_ms := some elapsedMs
            stage_name := some stageName }
  | .error e =>
    if caughtByExecutor e.ty then
      .ok (handleCheckException check e elapsedMs executedAt stageName)
    else
      .error e

/-- Python `str.lower` (ASCII-relevant part), on the underlying
character list. -/
def pyLowerStr (s : String) : String :=
  ⟨s.data.map Char.toLower⟩

/-- Substring occurrence on character lists (the Python `needle in hay`
test): `needle` occurs contiguously in `hay`. -/
def containsSub (needle : List Char) : List Char → Bool
  | [] => needle.isEmpty
  | c :: t => needle.isPrefixOf (c :: t) || containsSub needle t

/-- Python's `needle in hay` on strings. -/
def strContains (hay needle : String) : Bool :=
  containsSub needle.data hay.data

/-- Model of `ReadinessStageResult` from `models.py`. -/
structure ReadinessStageResult where
  stage_name : String
  status : CheckStatus
  message : String
  check_results : List ReadinessCheckResult := []
  executed_at : Option String := none
  execution_time_ms : Option Nat := none
  total_checks : Nat := 0
  successful_checks : Nat := 0
  failed_checks : Nat := 0
  skipped_checks : Nat := 0
  run_once : Bool := false
deriving DecidableEq

/-- Model of `ReadinessStage` from `stage.py`: configuration, ordered checks and
the `run_once` cache fields. -/
structure ReadinessStage where
  name : String
  description : String := ""
  is_critical : Bool := false
  fail_fast : Bool := true
  run_once : Bool := false
  checks : List ReadinessCheck := []
  executed_once : Bool := false
  last_result : Option ReadinessStageResult := none
deriving DecidableEq

/-- Model of `ResultProcessor._should_stop_on_failure` from `processor.py`. -/
def shouldStopOnFailure (check : ReadinessCheck) (stageName : String)
    (failFast : Bool) : Bool × String :=
  if check.is_critical then
    (true, "Critical check \x27" ++ check.name ++ "\x27 failed in stage \x27"
      ++ stageName ++ "\x27")
  else if failFast then
    (true, "Stage \x27" ++ stageName ++ "\x27 failed on check \x27"
      ++ check.name ++ "\x27")
  else
    (false, "")

/-- Model of `ResultProcessor.process_check_result` from `processor.py`: decide
whether the stage must stop, and with which reason. -/
def processCheckResult (check : ReadinessCheck)
    (checkResult : ReadinessCheckResult) (stageName : String)
    (failFast : Bool) : Bool × String :=
  if checkResult.status = .success then
    (false, "")
  else if checkResult.status = .notApplicable then
    (false, "")
  else if checkResult.status = .skipStage then
    (true, "Stage \x27" ++ stageName ++ "\x27 skipped due to check \x27"
      ++ check.name ++ "\x27")
  else
    shouldStopOnFailure check stageName failFast

/-- Model of `ResultProcessor.finalize_stage_result` from `processor.py`: set the
final stage status if still `RUNNING`. -/
def finalizeStageResult (result : ReadinessStageResult)
    (stageName : String) : ReadinessStageResult :=
  if result.status = .running then
    if result.failed_checks = 0 then
      { result with
          status := .success
          message := "Stage \x27" ++ stageName
            ++ "\x27 completed successfully: "
            ++ toString result.successful_checks ++ "/"
            ++ toString result.total_checks ++ " checks passed" }
    else
      { result with
          status := .failed
          message := "Stage \x27" ++ stageName
            ++ "\x27 completed with failures: "
            ++ toString result.failed_checks ++ "/"
            ++ toString result.total_checks ++ " checks failed" }
  else
    result

/-- The synthetic `SKIPPED` check result appended by
`ResultProcessor.mark_remaining_checks_skipped` for one unexecuted
check. -/
def skippedCheckResult (checkName stageName reason : String) :
    ReadinessCheckResult :=
  { status := .skipped
    message := "Skipped " ++ reason
    check_name := checkName
    stage_name := some stageName }

/-- First index of `a` in a list (Python
`next(i for i, x in enumerate(l) if x == a)`; `none` models the
`StopIteration` fallback). -/
def firstIdx {α : Type} [DecidableEq α] (a : α) : List α → Option Nat
  | [] => none
  | x :: xs => if x = a then some 0 else (firstIdx a xs).map (· + 1)

/-- Model of `ResultProcessor.mark_remaining_checks_skipped` from `processor.py`:
append a synthetic `SKIPPED` result, and bump `skipped_checks`, for every
check after the first occurrence of `failedCheck` in `allChecks`. -/
def markRemainingChecksSkipped (result : ReadinessStageResult)
    (failedCheck : ReadinessCheck) (allChecks : List ReadinessCheck)
    (stageName reason : String) : ReadinessStageResult :=
  match firstIdx failedCheck allChecks with
  | none => result
  | some i =>
    let remaining := allChecks.drop (i + 1)
    { result with
        check_results := result.check_results
          ++ remaining.map (fun c => skippedCheckResult c.name stageName reason)
        skipped_checks := result.skipped_checks + remaining.length }

/-- The counter update in `ReadinessStage._execute_single_check`
(`stage.py`): exactly one of the three counters is incremented, selected
by the returned status. -/
def updateStageCounters (result : ReadinessStageResult)
    (st : CheckStatus) : ReadinessStageResult :=
  if st = .success then
    { result with successful_checks := result.successful_checks + 1 }
  else if st = .notApplicable ∨ st = .skipStage then
    { result with skipped_checks := result.skipped_checks + 1 }
  else
    { result with failed_checks := result.failed_checks + 1 }

/-- Model of `ReadinessStage._execute_single_check` from `stage.py`: execute one
check, append its result, decide whether to stop, update counters, and on
a stop with a non-empty reason set the stage status (`SKIPPED` when the
lowered reason contains `"skipped"`, else `FAILED`), set the message, and
backfill the remaining checks as skipped.  Returns `(should_stop,
updated result)`; an uncaught exception from the check propagates. -/
def execSingleCheckInStage (stage : ReadinessStage) (check : ReadinessCheck)
    (result : ReadinessStageResult) :
    Except PyExc (Bool × ReadinessStageResult) :=
  match executeSingleCheck check stage.name "" 0 with
  | .error e => .error e
  | .ok checkResult =>
    let result := { result with
      check_results := result.check_results ++ [checkResult] }
    let stopDecision := processCheckResult check checkResult stage.name stage.fail_fast
    let shouldStop := stopDecision.1
    let stopReason := stopDecision.2
    let result := updateStageCounters result checkResult.status
    let result :=
      if shouldStop && !(stopReason == "") then
        let newStatus :=
          if strContains (pyLowerStr stopReason) "skipped" then
            CheckStatus.skipped
          else
            CheckStatus.failed
        let result := { result with status := newStatus, message := stopReason }
        if newStatus = .skipped then
          markRemainingChecksSkipped result check stage.checks stage.name
            "due to stage skip"
        else
          markRemainingChecksSkipped result check stage.checks stage.name
            "due to fail-fast"
      else
        result
    .ok (shouldStop, result)

/-- The `for check in self.checks` loop of
`ReadinessStage._execute_stage`, breaking on the first stop. -/
def runChecksLoop (stage : ReadinessStage) :
    List ReadinessCheck → ReadinessStageResult →
    Except PyExc ReadinessStageResult
  | [], result => .ok result
  | check :: rest, result =>
    match execSingleCheckInStage stage check result with
    | .error e => .error e
    | .ok (true, result) => .ok result
    | .ok (false, result) => runChecksLoop stage rest result

/-- The fresh `ReadinessStageResult` built at the top of
`ReadinessStage._execute_stage`. -/
def initStageResult (stage : ReadinessStage) : ReadinessStageResult :=
  { stage_name := stage.name
    status := .running
    message := "Executing " ++ stage.name ++ " stage"
    total_checks := stage.checks.length
    run_once := stage.run_once }

/-- Model of `ReadinessStage._execute_stage` from `stage.py`: run the check loop
over a fresh stage result, then finalize the status. -/
def execStage (stage : ReadinessStage) : Except PyExc ReadinessStageResult :=
  match runChecksLoop stage stage.checks (initStageResult stage) with
  | .error e => .error e
  | .ok result => .ok (finalizeStageResult result stage.name)

/-- Model of `ReadinessPipelineResult` from `models.py`. -/
structure ReadinessPipelineResult where
  overall_status : CheckStatus
  server_state : ServerState
  message : String
  stage_results : List ReadinessStageResult := []
  executed_at : Option String := none
  execution_time_ms : Option Nat := none
  total_execution_time_ms : Option Nat := none
  total_stages : Nat := 0
  successful_stages : Nat := 0
  failed_stages : Nat := 0
  skipped_stages : Nat := 0
  total_checks : Nat := 0
  successful_checks : Nat := 0
  failed_checks : Nat := 0
  skipped_checks : Nat := 0
deriving DecidableEq

/-- The synthetic `SKIPPED` stage result built by
`PipelineExecutor._mark_remaining_stages_skipped` for one unexecuted
stage. -/
def skippedStageResult (stage : ReadinessStage) : ReadinessStageResult :=
  { stage_name := stage.name
    status := .skipped
    message := "Skipped due to critical stage failure"
    total_checks := stage.checks.length
    skipped_checks := stage.checks.length
    run_once := stage.run_once }

/-- Model of `PipelineExecutor._mark_remaining_stages_skipped` from `executor.py`:
append a synthetic `SKIPPED` stage result for every stage after the first
occurrence of `failedStage` in `allStages`. -/
def markRemainingStagesSkipped (result : ReadinessPipelineResult)
    (failedStage : ReadinessStage) (allStages : List ReadinessStage) :
    ReadinessPipelineResult :=
  match firstIdx failedStage allStages with
  | none => result
  | some i =>
    { result with
        stage_results := result.stage_results
          ++ (allStages.drop (i + 1)).map skippedStageResult }

/-- The `for stage in execution_order` loop of
`PipelineExecutor.execute_pipeline`, with the critical-stage
short-circuit, and the surrounding `except Exception` that converts an
escaping exception into a `FAILED`/`ERROR` result.  The stage-level
`run_once` cache of `ReadinessStage.execute` is not replayed here: it
would only substitute a previously computed result of the same
`_execute_stage` function. -/
def runStagesLoop (allStages : List ReadinessStage) :
    List ReadinessStage → ReadinessPipelineResult → ReadinessPipelineResult
  | [], result => result
  | stage :: rest, result =>
    match execStage stage with
    | .error e =>
      { result with
          overall_status := .failed
          server_state := .error
          message := "Pipeline execution failed: " ++ e.msg }
    | .ok stageResult =>
      let result := { result with
        stage_results := result.stage_results ++ [stageResult] }
      if stage.is_critical && stageResult.status == CheckStatus.failed then
        markRemainingStagesSkipped
          { result with
              overall_status := .failed
              server_state := .error
              message := "Critical stage \x27" ++ stage.name ++ "\x27 failed" }
          stage allStages
      else
        runStagesLoop allStages rest result

/-- The fresh `ReadinessPipelineResult` built at the top of
`PipelineExecutor.execute_pipeline`. -/
def initPipelineResult : ReadinessPipelineResult :=
  { server_state := .checking
    overall_status := .running
    message := "Self-check pipeline execution in progress" }

/-- Model of `PipelineExecutor.execute_pipeline` from `executor.py`
(`_get_execution_order` keeps the declared order). -/
def executePipeline (stages : List ReadinessStage) :
    ReadinessPipelineResult :=
  runStagesLoop stages stages initPipelineResult

/-- One iteration of the aggregation loop of
`ResultCalculator.finalize_result` (`calculator.py`). -/
def aggStepChecks (res : ReadinessPipelineResult)
    (sr : ReadinessStageResult) : ReadinessPipelineResult :=
  { res with
      total_checks := res.total_checks + sr.total_checks
      successful_checks := res.successful_checks + sr.successful_checks
      failed_checks := res.failed_checks + sr.failed_checks
      skipped_checks := res.skipped_checks + sr.skipped_checks }

/-- The aggregation loop of `ResultCalculator.finalize_result`
(`calculator.py`): sum the per-stage check counters into the pipeline
result. -/
def aggregateChecks (result : ReadinessPipelineResult) :
    ReadinessPipelineResult :=
  result.stage_results.foldl aggStepChecks result

/-- The stage-counter recomputation of `ResultCalculator.finalize_result`
(`calculator.py`): stage totals are always recomputed from the final
`stage_results` list. -/
def recomputeStageCounts (result : ReadinessPipelineResult) :
    ReadinessPipelineResult :=
  { result with
    total_stages := result.stage_results.length
    successful_stages :=
      (result.stage_results.filter (fun sr => sr.status == CheckStatus.success)).length
    failed_stages :=
      (result.stage_results.filter (fun sr => sr.status == CheckStatus.failed)).length
    skipped_stages :=
      (result.stage_results.filter (fun sr => sr.status == CheckStatus.skipped)).length }

/-- The final-status decision of `ResultCalculator.finalize_result`
(`calculator.py`): only applies while `overall_status` is still
`RUNNING`. -/
def decideOverall (result : ReadinessPipelineResult) :
    ReadinessPipelineResult :=
  if result.overall_status = CheckStatus.running then
    if result.failed_checks = 0 then
      { result with
          overall_status := .success
          server_state := .operational
          message := "All pipeline stages completed successfully" }
    else
      { result with
          overall_status := .failed
          server_state :=
            if result.successful_checks > 0 then .degraded else .error
          message := "Pipeline completed with "
            ++ toString result.failed_checks ++ " check failures" }
  else
    result

/-- Model of `ResultCalculator.finalize_result` from `calculator.py`: aggregate
check counters, recompute stage counters from the stage results, and if
the overall status is still `RUNNING` decide the final status and server
state from the aggregated check counters. -/
def finalizeResult (result : ReadinessPipelineResult) :
    ReadinessPipelineResult :=
  decideOverall (recomputeStageCounts (aggregateChecks result))

/-- Model of `ReadinessPipeline` from `pipeline.py`: the facade state. -/
structure ReadinessPipeline where
  stages : List ReadinessStage
  current_state : ServerState := .starting
  last_result : Option ReadinessPipelineResult := none
  current_result : Option ReadinessPipelineResult := none
deriving DecidableEq

/-- Model of `ReadinessPipeline.execute` from `pipeline.py`: run the executor,
finalize with the calculator, and update `current_state`, `last_result`
and `current_result`.  In the source `current_result` is assigned the
executor's result object *before* finalization, but `finalize_result`
mutates and returns that same object, so after `execute` returns,
`current_result` aliases the finalized result. -/
def ReadinessPipeline.execute (p : ReadinessPipeline) :
    ReadinessPipelineResult × ReadinessPipeline :=
  let result := finalizeResult (executePipeline p.stages)
  (result,
    { p with
        current_state := result.server_state
        last_result := some result
        current_result := some result })

/-- Model of `ReadinessStage.reset` from `stage.py`: clear the stage cache and
reset every contained check. -/
def ReadinessStage.resetStage (s : ReadinessStage) : ReadinessStage :=
  { s with
      executed_once := false
      last_result := none
      checks := s.checks.map ReadinessCheck.reset }

/-- Model of `ReadinessPipeline.reset` from `pipeline.py`: back to `STARTING`,
clear `last_result`, and reset every stage.  `current_result` is not
touched. -/
def ReadinessPipeline.reset (p : ReadinessPipeline) : ReadinessPipeline :=
  { p with
      current_state := .starting
      last_result := none
      stages := p.stages.map ReadinessStage.resetStage }

/-- Model of `ReadinessPipeline.get_last_result` from `pipeline.py`. -/
def getLastResult (p : ReadinessPipeline) :
    Option ReadinessPipelineResult :=
  p.last_result

/-- The stage-result lookup by name used inside
`ReadinessPipeline._get_stage_result_from_any_source`. -/
def findStageResult (r : ReadinessPipelineResult) (stageName : String) :
    Option ReadinessStageResult :=
  r.stage_results.find? (fun sr => sr.stage_name == stageName)

/-- Model of `ReadinessPipeline._get_stage_result_from_any_source` from
`pipeline.py`: look in `current_result` first, then fall back to
`last_result`. -/
def getStageResultFromAnySource (p : ReadinessPipeline)
    (stageName : String) : Option ReadinessStageResult :=
  match p.current_result.bind (fun cur => findStageResult cur stageName) with
  | some sr => some sr
  | none => p.last_result.bind (fun lr => findStageResult lr stageName)

/-- Model of `ReadinessPipeline.get_stage_status` from `pipeline.py`. -/
def getStageStatus (p : ReadinessPipeline) (stageName : String) :
    Option CheckStatus :=
  (getStageResultFromAnySource p stageName).map (fun sr => sr.status)

/-- Model of `ReadinessPipeline.is_stage_successful` from `pipeline.py`. -/
def isStageSuccessful (p : ReadinessPipeline) (stageName : String) : Bool :=
  match getStageResultFromAnySource p stageName with
  | some sr => sr.status == CheckStatus.success
  | none => false

/-- Model of `ReadinessPipelineBuilder` from `builder.py`: the ordered stage list
and the by-name dictionary (modelled as an association list). -/
structure ReadinessPipelineBuilder where
  stages : List ReadinessStage := []
  stages_by_name : List (String × ReadinessStage) := []
deriving DecidableEq

/-- Model of `ReadinessPipelineBuilder.add_stage` from `builder.py`: raise
`ValueError` on a duplicate name, otherwise append the new stage to both
containers.  The error case carries the builder state at the raise point
(a Python `raise` performs no rollback); the raise precedes any
mutation. -/
def addStage (b : ReadinessPipelineBuilder) (name description : String)
    (isCritical failFast : Bool) :
    Except (String × ReadinessPipelineBuilder)
      (ReadinessStage × ReadinessPipelineBuilder) :=
  if (b.stages_by_name.find? (fun pr => pr.1 == name)).isSome then
    .error ("Stage \x27" ++ name ++ "\x27 already exists", b)
  else
    let stage : ReadinessStage :=
      { name := name
        description := description
        is_critical := isCritical
        fail_fast := failFast }
    .ok (stage,
      { b with
          stages := b.stages ++ [stage]
          stages_by_name := b.stages_by_name ++ [(name, stage)] })

/-! ### Values used by the concrete theorems below -/

/-- Fallback value for reading an `Except.ok` payload that is known to
exist. -/
def fallbackStageResult : ReadinessStageResult :=
  { stage_name := "", status := .pending, message := "" }

/-- The stage result a stage's `_execute_stage` produces, for stages
whose execution raises no uncaught exception. -/
def stageResultOf (s : ReadinessStage) : ReadinessStageResult :=
  match execStage s with
  | .ok r => r
  | .error _ => fallbackStageResult

/-- Model of `r.successful_checks + r.failed_checks + r.skipped_checks`. -/
def sumCounts (r : ReadinessStageResult) : Nat :=
  r.successful_checks + r.failed_checks + r.skipped_checks

/-! ### C1 -/

/-- A check whose body raises `KeyError("boom")` — an exception class
outside the tuple caught by `execute_single_check`. -/
def keyErrorCheck : ReadinessCheck :=
  { name := "kc", behavior := Except.error { ty := .keyError, msg := "boom" } }

/-- A check whose body raises `ValueError("boom")` — a caught class. -/
def valueErrorCheck : ReadinessCheck :=
  { name := "vc", behavior := Except.error { ty := .valueError, msg := "boom" } }

/-- C1: the claim says `execute_single_check` converts *any* runtime
exception into a `FAILED` result and never lets an exception propagate,
matching the function's own docstring; but the `except` clause only
catches `ValueError`, `TypeError`, `RuntimeError` and `AttributeError`,
so a check raising `KeyError("boom")` propagates out of
`execute_single_check` (first conjunct), while a caught class such as
`ValueError` is indeed converted exactly as the claim describes (second
conjunct). -/
theorem c1_executor_catches_only_listed_exceptions :
    executeSingleCheck keyErrorCheck "db" "t0" 3
        = Except.error { ty := .keyError, msg := "boom" }
    ∧ executeSingleCheck valueErrorCheck "db" "t0" 3
        = Except.ok
            { status := .failed
              message := "Check execution failed: boom"
              details := [("exception", "boom"), ("type", "ValueError")]
              check_name := "vc"
              stage_name := some "db"
              executed_at := some "t0"
              execution_time_ms := some 3 } := by
  exact ⟨rfl, by decide⟩

/-! ### C5 -/

/-- C5: for a `run_once=true` check, once a first `run()` (with
`force_rerun=false`) has returned result `r` and the post-call check
state `c'`, a second `run()` with `force_rerun=false` returns the very
same `(r, c')`: the prior result value, and the state unchanged — in
particular `execute_calls` is not incremented, i.e. `_execute` is not
invoked again. -/
theorem c5_run_once_returns_cached (c : ReadinessCheck)
    (r : ReadinessCheckResult) (c' : ReadinessCheck)
    (hro : c.run_once = true)
    (h : c.run false = Except.ok (r, c')) :
    c'.run false = Except.ok (r, c') := by
  obtain ⟨nm, crit, ro, beh, e1, lr, cnt⟩ := c
  replace hro : ro = true := hro
  subst hro
  cases e1 with
  | false =>
    cases beh with
    | error e => simp [ReadinessCheck.run, runFreshCheck] at h
    | ok rb =>
      simp only [ReadinessCheck.run, runFreshCheck, Bool.not_false,
        Bool.true_and, Bool.and_false, Bool.false_eq_true, if_false,
        if_true, Except.ok.injEq, Prod.mk.injEq] at h
      obtain ⟨hr, hc⟩ := h
      subst hr
      subst hc
      rfl
  | true =>
    cases lr with
    | some r0 =>
      simp only [ReadinessCheck.run, Bool.not_false, Bool.true_and,
        Bool.and_self, if_true, Except.ok.injEq, Prod.mk.injEq] at h
      obtain ⟨hr, hc⟩ := h
      subst hr
      subst hc
      rfl
    | none =>
      cases beh with
      | error e => simp [ReadinessCheck.run, runFreshCheck] at h
      | ok rb =>
        simp only [ReadinessCheck.run, runFreshCheck, Bool.not_false,
          Bool.true_and, Bool.and_self, if_true, Except.ok.injEq,
          Prod.mk.injEq] at h
        obtain ⟨hr, hc⟩ := h
        subst hr
        subst hc
        rfl

/-- A concrete `run_once` check for the C5 witness. -/
def cachedCheck : ReadinessCheck :=
  { name := "once"
    run_once := true
    behavior := Except.ok
      { status := .success, message := "ok", check_name := "once",
        run_once := true } }

/-- Witness for C5 at a concrete `run_once` check. -/
theorem c5_witness :
    ({ cachedCheck with
         execute_calls := 1
         executed_once := true
         last_result := some
           { status := .success, message := "ok", check_name := "once",
             run_once := true } } : ReadinessCheck).run false
      = Except.ok
          ({ status := .success, message := "ok", check_name := "once",
             run_once := true },
           { cachedCheck with
               execute_calls := 1
               executed_once := true
               last_result := some
                 { status := .success, message := "ok", check_name := "once",
                   run_once := true } }) :=
  c5_run_once_returns_cached cachedCheck _ _ (by decide) (by decide)

/-! ### C8 -/

/-- C8: calling `add_stage` with a name already registered in the
builder raises `ValueError("Stage '<name>' already exists")`; the raise
precedes any mutation, so the builder state carried out by the exception
is exactly the state before the call — the stage list is unchanged. -/
theorem c8_duplicate_stage_name (b : ReadinessPipelineBuilder)
    (name description : String) (isCritical failFast : Bool)
    (h : (b.stages_by_name.find? (fun pr => pr.1 == name)).isSome = true) :
    addStage b name description isCritical failFast
      = Except.error ("Stage \x27" ++ name ++ "\x27 already exists", b) := by
  unfold addStage
  rw [if_pos h]

/-- A builder that already holds a stage named `"db"`, for the C8
witness. -/
def builderWithDb : ReadinessPipelineBuilder :=
  match addStage {} "db" "database checks" false true with
  | .ok (_, b) => b
  | .error (_, b) => b

/-- Witness for C8: adding `"db"` again fails and carries the builder
unchanged. -/
theorem c8_witness :
    addStage builderWithDb "db" "again" true false
      = Except.error ("Stage \x27db\x27 already exists", builderWithDb) := by
  have h := c8_duplicate_stage_name builderWithDb "db" "again" true false
    (by decide)
  rw [h]
  decide

/-! ### C9 -/

/-- C9: `Pipeline.reset()` sets `current_state` to `STARTING`, clears
`last_result`, and resets the stages, but leaves `current_result` in
place; hence after a reset `get_last_result()` is `None`, while the
stage lookups (`_get_stage_result_from_any_source`, `get_stage_status`,
`is_stage_successful`) still resolve from the retained `current_result`
of the execution that preceded the reset. -/
theorem c9_reset_frame (p : ReadinessPipeline) (stageName : String) :
    (p.reset).current_state = ServerState.starting
    ∧ (p.reset).last_result = none
    ∧ (p.reset).current_result = p.current_result
    ∧ getLastResult p.reset = none
    ∧ getStageResultFromAnySource p.reset stageName
        = p.current_result.bind (fun cur => findStageResult cur stageName)
    ∧ getStageStatus p.reset stageName
        = (p.current_result.bind (fun cur => findStageResult cur stageName)).map
            (fun sr => sr.status)
    ∧ isStageSuccessful p.reset stageName
        = ((p.current_result.bind (fun cur => findStageResult cur stageName)).map
            (fun sr => sr.status == CheckStatus.success)).getD false := by
  have hsrc : getStageResultFromAnySource p.reset stageName
      = p.current_result.bind (fun cur => findStageResult cur stageName) := by
    unfold getStageResultFromAnySource ReadinessPipeline.reset
    cases p.current_result.bind (fun cur => findStageResult cur stageName) with
    | none => rfl
    | some sr => rfl
  refine ⟨rfl, rfl, rfl, rfl, hsrc, ?_, ?_⟩
  · unfold getStageStatus
    rw [hsrc]
  · unfold isStageSuccessful
    rw [hsrc]
    cases p.current_result.bind (fun cur => findStageResult cur stageName) with
    | none => rfl
    | some sr => rfl

/-! ### C3 -/

theorem foldl_aggStep_overall (l : List ReadinessStageResult) :
    ∀ res : ReadinessPipelineResult,
      (l.foldl aggStepChecks res).overall_status = res.overall_status := by
  induction l with
  | nil => intro res; rfl
  | cons sr l ih =>
    intro res
    rw [List.foldl_cons]
    exact ih (aggStepChecks res sr)

theorem aggregateChecks_overall (res : ReadinessPipelineResult) :
    (aggregateChecks res).overall_status = res.overall_status :=
  foldl_aggStep_overall res.stage_results res

/-- C3: with `overall_status` still `RUNNING` when `finalize_result`
runs, the aggregated `failed_checks == 0` yields
`SUCCESS`/`OPERATIONAL`; otherwise `FAILED` with `DEGRADED` when some
check succeeded and `ERROR` when none did.  The last three conjuncts
instantiate the empty pipeline: `execute()` on `[]` stages gives
`OPERATIONAL`, `SUCCESS` and `total_checks = 0`. -/
theorem c3_finalize_state_decision (res : ReadinessPipelineResult)
    (h : res.overall_status = CheckStatus.running) :
    ((finalizeResult res).failed_checks = 0 →
        (finalizeResult res).overall_status = CheckStatus.success
        ∧ (finalizeResult res).server_state = ServerState.operational)
    ∧ (0 < (finalizeResult res).failed_checks →
        (finalizeResult res).overall_status = CheckStatus.failed
        ∧ (0 < (finalizeResult res).successful_checks →
            (finalizeResult res).server_state = ServerState.degraded)
        ∧ ((finalizeResult res).successful_checks = 0 →
            (finalizeResult res).server_state = ServerState.error))
    ∧ (ReadinessPipeline.execute { stages := [] }).1.server_state
        = ServerState.operational
    ∧ (ReadinessPipeline.execute { stages := [] }).1.overall_status
        = CheckStatus.success
    ∧ (ReadinessPipeline.execute { stages := [] }).1.total_checks = 0 := by
  have hR : (recomputeStageCounts (aggregateChecks res)).overall_status
      = CheckStatus.running := by
    show (aggregateChecks res).overall_status = CheckStatus.running
    rw [aggregateChecks_overall, h]
  have hfin : finalizeResult res
      = decideOverall (recomputeStageCounts (aggregateChecks res)) := rfl
  set R := recomputeStageCounts (aggregateChecks res) with hRdef
  have hdec : decideOverall R
      = if R.failed_checks = 0 then
          { R with
              overall_status := .success
              server_state := .operational
              message := "All pipeline stages completed successfully" }
        else
          { R with
              overall_status := .failed
              server_state :=
                if R.successful_checks > 0 then .degraded else .error
              message := "Pipeline completed with "
                ++ toString R.failed_checks ++ " check failures" } := by
    unfold decideOverall
    rw [if_pos hR]
  by_cases hF : R.failed_checks = 0
  · have hval : finalizeResult res
        = { R with
            overall_status := .success
            server_state := .operational
            message := "All pipeline stages completed successfully" } := by
      rw [hfin, hdec, if_pos hF]
    refine ⟨fun _ => ⟨by rw [hval], by rw [hval]⟩, ?_, rfl, rfl, rfl⟩
    intro hpos
    exfalso
    rw [hval] at hpos
    exact absurd hF (Nat.pos_iff_ne_zero.mp hpos)
  · have hval : finalizeResult res
        = { R with
            overall_status := .failed
            server_state :=
              if R.successful_checks > 0 then .degraded else .error
            message := "Pipeline completed with "
              ++ toString R.failed_checks ++ " check failures" } := by
      rw [hfin, hdec, if_neg hF]
    refine ⟨fun h0 => absurd (by rw [hval] at h0; exact h0) hF,
      fun _ => ⟨by rw [hval], ?_, ?_⟩, rfl, rfl, rfl⟩
    · intro hS
      rw [hval] at hS ⊢
      show (if R.successful_checks > 0 then ServerState.degraded
        else ServerState.error) = ServerState.degraded
      rw [if_pos hS]
    · intro hS
      rw [hval] at hS ⊢
      show (if R.successful_checks > 0 then ServerState.degraded
        else ServerState.error) = ServerState.error
      rw [if_neg (by rw [hS]; exact Nat.lt_irrefl 0)]

/-- Witness for C3 at the fresh pipeline result (whose `overall_status`
is `RUNNING`). -/
theorem c3_witness :
    (finalizeResult initPipelineResult).overall_status = CheckStatus.success
    ∧ (finalizeResult initPipelineResult).server_state
        = ServerState.operational :=
  (c3_finalize_state_decision initPipelineResult rfl).1 (by decide)

/-! ### String and list helper lemmas for the stage-level proofs -/

theorem str_data_append_ne_nil (a b : String) (ha : a.data ≠ []) :
    (a ++ b).data ≠ [] := by
  rw [String.data_append]
  intro hcon
  exact ha (List.append_eq_nil.mp hcon).1

theorem str_beq_empty_false (s : String) (h : s.data ≠ []) :
    (s == "") = false := by
  cases heq : s == "" with
  | false => rfl
  | true =>
    exfalso
    have hs : s = "" := eq_of_beq heq
    rw [hs] at h
    exact h rfl

theorem appended5_beq_empty_false (a x b y c : String) (ha : a.data ≠ []) :
    (((((a ++ x) ++ b) ++ y) ++ c) == "") = false :=
  str_beq_empty_false _
    (str_data_append_ne_nil _ _
      (str_data_append_ne_nil _ _
        (str_data_append_ne_nil _ _
          (str_data_append_ne_nil _ _ ha))))

theorem isPrefixOf_append_of_isPrefixOf (n : List Char) :
    ∀ s t : List Char, n.isPrefixOf s = true → n.isPrefixOf (s ++ t) = true := by
  induction n with
  | nil => intro s t _; simp [List.isPrefixOf]
  | cons a as ih =>
    intro s t h
    cases s with
    | nil => simp [List.isPrefixOf] at h
    | cons b bs =>
      simp only [List.isPrefixOf, Bool.and_eq_true] at h
      simp only [List.cons_append, List.isPrefixOf, Bool.and_eq_true]
      exact ⟨h.1, ih bs t h.2⟩

theorem containsSub_nil_needle : ∀ h : List Char, containsSub [] h = true
  | [] => rfl
  | _ :: t => by
    unfold containsSub
    simp [List.isPrefixOf]

theorem containsSub_append_right (n : List Char) :
    ∀ h₁ h₂ : List Char, containsSub n h₂ = true →
      containsSub n (h₁ ++ h₂) = true := by
  intro h₁
  induction h₁ with
  | nil => intro h₂ hc; exact hc
  | cons a t ih =>
    intro h₂ hc
    show containsSub n (a :: (t ++ h₂)) = true
    unfold containsSub
    rw [ih h₂ hc]
    simp

theorem containsSub_append_left (n : List Char) :
    ∀ h₁ h₂ : List Char, containsSub n h₁ = true →
      containsSub n (h₁ ++ h₂) = true := by
  intro h₁
  induction h₁ with
  | nil =>
    intro h₂ hc
    have hn : n = [] := by
      cases n with
      | nil => rfl
      | cons c t => simp [containsSub, List.isEmpty] at hc
    rw [hn]
    exact containsSub_nil_needle h₂
  | cons a t ih =>
    intro h₂ hc
    cases hpre : n.isPrefixOf (a :: t) with
    | true =>
      show containsSub n (a :: (t ++ h₂)) = true
      unfold containsSub
      have hp2 : n.isPrefixOf ((a :: t) ++ h₂) = true :=
        isPrefixOf_append_of_isPrefixOf n (a :: t) h₂ hpre
      rw [List.cons_append] at hp2
      rw [hp2]
      simp
    | false =>
      have htail : containsSub n t = true := by
        unfold containsSub at hc
        rw [hpre] at hc
        simpa using hc
      show containsSub n (a :: (t ++ h₂)) = true
      unfold containsSub
      rw [ih h₂ htail]
      simp

theorem firstIdx_append {α : Type} [DecidableEq α] (a : α)
    (pre rest : List α) (h : ∀ x ∈ pre, x ≠ a) :
    firstIdx a (pre ++ a :: rest) = some pre.length := by
  induction pre with
  | nil => simp [firstIdx]
  | cons x xs ih =>
    have hx : ¬(x = a) := h x (by simp)
    have ihx := ih (fun y hy => h y (by simp [hy]))
    show firstIdx a (x :: (xs ++ a :: rest)) = some (xs.length + 1)
    unfold firstIdx
    rw [if_neg hx, ihx]
    rfl

theorem drop_append_cons {α : Type} (pre : List α) (a : α) (rest : List α) :
    (pre ++ a :: rest).drop (pre.length + 1) = rest := by
  have h1 : pre ++ a :: rest = (pre ++ [a]) ++ rest := by simp
  have h2 : (pre ++ [a]).length = pre.length + 1 := by simp
  rw [h1, ← h2, List.drop_left]

/-! ### Stage-execution infrastructure -/

/-- The accumulator step the check loop performs on a non-stopping
check: append the stamped result and bump the matching counter. -/
def accumulateCheck (stage : ReadinessStage) (acc : ReadinessStageResult)
    (c : ReadinessCheck) : ReadinessStageResult :=
  match executeSingleCheck c stage.name "" 0 with
  | .error _ => acc
  | .ok cr =>
    updateStageCounters
      { acc with check_results := acc.check_results ++ [cr] } cr.status

/-- The stage status chosen by `_execute_single_check` when check `c`
stops the stage: `SKIPPED` iff the lowered stop reason contains
`"skipped"`. -/
def stopStatusOf (stage : ReadinessStage) (c : ReadinessCheck)
    (cr : ReadinessCheckResult) : CheckStatus :=
  if strContains
      (pyLowerStr (processCheckResult c cr stage.name stage.fail_fast).2)
      "skipped" then
    CheckStatus.skipped
  else
    CheckStatus.failed

/-- The backfill reason `_execute_single_check` passes to
`mark_remaining_checks_skipped`. -/
def stopSkipReason (stage : ReadinessStage) (c : ReadinessCheck)
    (cr : ReadinessCheckResult) : String :=
  if stopStatusOf stage c cr = CheckStatus.skipped then "due to stage skip"
  else "due to fail-fast"

/-- The stage-result update performed by `_execute_single_check` when the
check stops the stage. -/
def stopUpdate (stage : ReadinessStage) (c : ReadinessCheck)
    (cr : ReadinessCheckResult) (acc : ReadinessStageResult) :
    ReadinessStageResult :=
  let reason := (processCheckResult c cr stage.name stage.fail_fast).2
  let newStatus :=
    if strContains (pyLowerStr reason) "skipped" then CheckStatus.skipped
    else CheckStatus.failed
  let acc1 :=
    updateStageCounters
      { acc with check_results := acc.check_results ++ [cr] } cr.status
  let acc2 := { acc1 with status := newStatus, message := reason }
  if newStatus = CheckStatus.skipped then
    markRemainingChecksSkipped acc2 c stage.checks stage.name
      "due to stage skip"
  else
    markRemainingChecksSkipped acc2 c stage.checks stage.name
      "due to fail-fast"

theorem processCheckResult_stop_reason_ne (c : ReadinessCheck)
    (cr : ReadinessCheckResult) (sn : String) (ff : Bool)
    (h : (processCheckResult c cr sn ff).1 = true) :
    ((processCheckResult c cr sn ff).2 == "") = false := by
  unfold processCheckResult shouldStopOnFailure at h ⊢
  split_ifs at h ⊢ <;>
    exact appended5_beq_empty_false _ _ _ _ _ (by decide)

theorem updateStageCounters_check_results (r : ReadinessStageResult)
    (st : CheckStatus) :
    (updateStageCounters r st).check_results = r.check_results := by
  unfold updateStageCounters
  split_ifs <;> rfl

theorem updateStageCounters_total (r : ReadinessStageResult)
    (st : CheckStatus) :
    (updateStageCounters r st).total_checks = r.total_checks := by
  unfold updateStageCounters
  split_ifs <;> rfl

theorem updateStageCounters_sum (r : ReadinessStageResult)
    (st : CheckStatus) :
    sumCounts (updateStageCounters r st) = sumCounts r + 1 := by
  unfold updateStageCounters sumCounts
  split_ifs <;> simp <;> omega

theorem accumulateCheck_props (stage : ReadinessStage)
    (acc : ReadinessStageResult) (c : ReadinessCheck)
    (cr : ReadinessCheckResult)
    (hok : executeSingleCheck c stage.name "" 0 = Except.ok cr) :
    (accumulateCheck stage acc c).check_results = acc.check_results ++ [cr]
    ∧ sumCounts (accumulateCheck stage acc c) = sumCounts acc + 1
    ∧ (accumulateCheck stage acc c).total_checks = acc.total_checks := by
  unfold accumulateCheck
  rw [hok]
  refine ⟨?_, ?_, ?_⟩
  · rw [updateStageCounters_check_results]
  · rw [updateStageCounters_sum]
    show sumCounts acc + 1 = sumCounts acc + 1
    rfl
  · rw [updateStageCounters_total]

theorem markRemaining_eq (acc : ReadinessStageResult) (c : ReadinessCheck)
    (pre rest : List ReadinessCheck) (sn reason : String)
    (hne : ∀ x ∈ pre, x ≠ c) :
    markRemainingChecksSkipped acc c (pre ++ c :: rest) sn reason
      = { acc with
          check_results := acc.check_results
            ++ rest.map (fun c2 => skippedCheckResult c2.name sn reason)
          skipped_checks := acc.skipped_checks + rest.length } := by
  unfold markRemainingChecksSkipped
  rw [firstIdx_append c pre rest hne]
  show ({ acc with
      check_results := acc.check_results
        ++ ((pre ++ c :: rest).drop (pre.length + 1)).map
            (fun c2 => skippedCheckResult c2.name sn reason)
      skipped_checks := acc.skipped_checks
        + ((pre ++ c :: rest).drop (pre.length + 1)).length } :
      ReadinessStageResult) = _
  rw [drop_append_cons]

theorem execSingleCheckInStage_noStop (stage : ReadinessStage)
    (c : ReadinessCheck) (acc : ReadinessStageResult)
    (cr : ReadinessCheckResult)
    (hok : executeSingleCheck c stage.name "" 0 = Except.ok cr)
    (hns : (processCheckResult c cr stage.name stage.fail_fast).1 = false) :
    execSingleCheckInStage stage c acc
      = Except.ok (false, accumulateCheck stage acc c) := by
  unfold execSingleCheckInStage accumulateCheck
  rw [hok]
  simp [hns]

theorem execSingleCheckInStage_stop (stage : ReadinessStage)
    (c : ReadinessCheck) (acc : ReadinessStageResult)
    (cr : ReadinessCheckResult)
    (hok : executeSingleCheck c stage.name "" 0 = Except.ok cr)
    (hst : (processCheckResult c cr stage.name stage.fail_fast).1 = true) :
    execSingleCheckInStage stage c acc
      = Except.ok (true, stopUpdate stage c cr acc) := by
  unfold execSingleCheckInStage stopUpdate
  rw [hok]
  have hne := processCheckResult_stop_reason_ne c cr stage.name
    stage.fail_fast hst
  simp [hst, hne]

theorem runChecksLoop_cons_noStop (stage : ReadinessStage)
    (c : ReadinessCheck) (rest : List ReadinessCheck)
    (acc : ReadinessStageResult) (cr : ReadinessCheckResult)
    (hok : executeSingleCheck c stage.name "" 0 = Except.ok cr)
    (hns : (processCheckResult c cr stage.name stage.fail_fast).1 = false) :
    runChecksLoop stage (c :: rest) acc
      = runChecksLoop stage rest (accumulateCheck stage acc c) := by
  conv_lhs => rw [runChecksLoop, execSingleCheckInStage_noStop stage c acc cr hok hns]

theorem runChecksLoop_cons_stop (stage : ReadinessStage)
    (c : ReadinessCheck) (rest : List ReadinessCheck)
    (acc : ReadinessStageResult) (cr : ReadinessCheckResult)
    (hok : executeSingleCheck c stage.name "" 0 = Except.ok cr)
    (hst : (processCheckResult c cr stage.name stage.fail_fast).1 = true) :
    runChecksLoop stage (c :: rest) acc
      = Except.ok (stopUpdate stage c cr acc) := by
  conv_lhs => rw [runChecksLoop, execSingleCheckInStage_stop stage c acc cr hok hst]

theorem runChecksLoop_cons_error (stage : ReadinessStage)
    (c : ReadinessCheck) (rest : List ReadinessCheck)
    (acc : ReadinessStageResult) (e : PyExc)
    (herr : executeSingleCheck c stage.name "" 0 = Except.error e) :
    runChecksLoop stage (c :: rest) acc = Except.error e := by
  have hstep : execSingleCheckInStage stage c acc = Except.error e := by
    unfold execSingleCheckInStage
    rw [herr]
  conv_lhs => rw [runChecksLoop, hstep]

theorem runChecksLoop_over_pre (stage : ReadinessStage) :
    ∀ pre : List ReadinessCheck,
      (∀ x ∈ pre, ∃ cr, executeSingleCheck x stage.name "" 0 = Except.ok cr
          ∧ (processCheckResult x cr stage.name stage.fail_fast).1 = false) →
      ∀ (rest : List ReadinessCheck) (acc : ReadinessStageResult),
        runChecksLoop stage (pre ++ rest) acc
          = runChecksLoop stage rest (pre.foldl (accumulateCheck stage) acc) := by
  intro pre
  induction pre with
  | nil => intro _ rest acc; rfl
  | cons c pre ih =>
    intro hpre rest acc
    obtain ⟨cr, hok, hns⟩ := hpre c (by simp)
    rw [List.cons_append, runChecksLoop_cons_noStop stage c (pre ++ rest)
      acc cr hok hns, List.foldl_cons]
    exact ih (fun x hx => hpre x (by simp [hx])) rest _

theorem foldl_accumulate_props (stage : ReadinessStage) :
    ∀ pre : List ReadinessCheck,
      (∀ x ∈ pre, ∃ cr, executeSingleCheck x stage.name "" 0 = Except.ok cr) →
      ∀ acc : ReadinessStageResult,
        (pre.foldl (accumulateCheck stage) acc).check_results.length
            = acc.check_results.length + pre.length
        ∧ sumCounts (pre.foldl (accumulateCheck stage) acc)
            = sumCounts acc + pre.length
        ∧ (pre.foldl (accumulateCheck stage) acc).total_checks
            = acc.total_checks := by
  intro pre
  induction pre with
  | nil => intro _ acc; exact ⟨rfl, rfl, rfl⟩
  | cons c pre ih =>
    intro hpre acc
    obtain ⟨cr, hok⟩ := hpre c (by simp)
    obtain ⟨ha1, ha2, ha3⟩ := accumulateCheck_props stage acc c cr hok
    obtain ⟨hi1, hi2, hi3⟩ := ih (fun x hx => hpre x (by simp [hx]))
      (accumulateCheck stage acc c)
    rw [List.foldl_cons]
    refine ⟨?_, ?_, ?_⟩
    · rw [hi1, ha1]
      simp
      omega
    · rw [hi2, ha2]
      simp [Nat.add_assoc, Nat.add_comm 1 pre.length]
    · rw [hi3, ha3]

theorem pre_ne_of_noStop (stage : ReadinessStage)
    (pre : List ReadinessCheck) (c : ReadinessCheck)
    (cr : ReadinessCheckResult)
    (hpre : ∀ x ∈ pre, ∃ cr0, executeSingleCheck x stage.name "" 0 = Except.ok cr0
        ∧ (processCheckResult x cr0 stage.name stage.fail_fast).1 = false)
    (hok : executeSingleCheck c stage.name "" 0 = Except.ok cr)
    (hst : (processCheckResult c cr stage.name stage.fail_fast).1 = true) :
    ∀ x ∈ pre, x ≠ c := by
  intro x hx heq
  obtain ⟨cr0, hok0, hns⟩ := hpre x hx
  rw [heq, hok, Except.ok.injEq] at hok0
  rw [heq, ← hok0, hst] at hns
  cases hns

/-- The intermediate stage result inside `_execute_single_check` after
appending the check result and updating the counters, before any
stop handling. -/
def stopBase (acc : ReadinessStageResult) (cr : ReadinessCheckResult) :
    ReadinessStageResult :=
  updateStageCounters
    { acc with check_results := acc.check_results ++ [cr] } cr.status

theorem stopBase_check_results (acc : ReadinessStageResult)
    (cr : ReadinessCheckResult) :
    (stopBase acc cr).check_results = acc.check_results ++ [cr] :=
  updateStageCounters_check_results _ _

theorem stopBase_sum (acc : ReadinessStageResult)
    (cr : ReadinessCheckResult) :
    sumCounts (stopBase acc cr) = sumCounts acc + 1 :=
  updateStageCounters_sum _ _

theorem stopBase_total (acc : ReadinessStageResult)
    (cr : ReadinessCheckResult) :
    (stopBase acc cr).total_checks = acc.total_checks :=
  updateStageCounters_total _ _

theorem stopUpdate_fields (stage : ReadinessStage) (c : ReadinessCheck)
    (cr : ReadinessCheckResult) (acc : ReadinessStageResult)
    (pre rest : List ReadinessCheck)
    (hchecks : stage.checks = pre ++ c :: rest)
    (hne : ∀ x ∈ pre, x ≠ c) :
    (stopUpdate stage c cr acc).status = stopStatusOf stage c cr
    ∧ (stopUpdate stage c cr acc).message
        = (processCheckResult c cr stage.name stage.fail_fast).2
    ∧ (stopUpdate stage c cr acc).check_results
        = (acc.check_results ++ [cr])
          ++ rest.map (fun c2 =>
              skippedCheckResult c2.name stage.name (stopSkipReason stage c cr))
    ∧ sumCounts (stopUpdate stage c cr acc) = sumCounts acc + 1 + rest.length
    ∧ (stopUpdate stage c cr acc).total_checks = acc.total_checks := by
  by_cases hcs : strContains
      (pyLowerStr (processCheckResult c cr stage.name stage.fail_fast).2)
      "skipped" = true
  · have hstat : stopStatusOf stage c cr = CheckStatus.skipped := by
      unfold stopStatusOf
      rw [if_pos hcs]
    have hsrr : stopSkipReason stage c cr = "due to stage skip" := by
      unfold stopSkipReason
      rw [hstat, if_pos rfl]
    have hval : stopUpdate stage c cr acc
        = markRemainingChecksSkipped
            { stopBase acc cr with
                status := CheckStatus.skipped
                message := (processCheckResult c cr stage.name stage.fail_fast).2 }
            c stage.checks stage.name "due to stage skip" := by
      unfold stopUpdate stopBase
      simp [hcs]
    rw [hchecks, markRemaining_eq _ c pre rest _ _ hne] at hval
    rw [hval, hstat, hsrr]
    refine ⟨rfl, rfl, ?_, ?_, ?_⟩
    · show (stopBase acc cr).check_results ++ _ = _
      rw [stopBase_check_results]
    · show (stopBase acc cr).successful_checks + (stopBase acc cr).failed_checks
        + ((stopBase acc cr).skipped_checks + rest.length)
        = sumCounts acc + 1 + rest.length
      have hs := stopBase_sum acc cr
      unfold sumCounts at hs ⊢
      omega
    · exact stopBase_total acc cr
  · have hcs' : strContains
        (pyLowerStr (processCheckResult c cr stage.name stage.fail_fast).2)
        "skipped" = false := by
      rw [← Bool.not_eq_true]
      exact hcs
    have hstat : stopStatusOf stage c cr = CheckStatus.failed := by
      unfold stopStatusOf
      rw [if_neg hcs]
    have hsrr : stopSkipReason stage c cr = "due to fail-fast" := by
      unfold stopSkipReason
      rw [hstat]
      rfl
    have hval : stopUpdate stage c cr acc
        = markRemainingChecksSkipped
            { stopBase acc cr with
                status := CheckStatus.failed
                message := (processCheckResult c cr stage.name stage.fail_fast).2 }
            c stage.checks stage.name "due to fail-fast" := by
      unfold stopUpdate stopBase
      simp [hcs']
    rw [hchecks, markRemaining_eq _ c pre rest _ _ hne] at hval
    rw [hval, hstat, hsrr]
    refine ⟨rfl, rfl, ?_, ?_, ?_⟩
    · show (stopBase acc cr).check_results ++ _ = _
      rw [stopBase_check_results]
    · show (stopBase acc cr).successful_checks + (stopBase acc cr).failed_checks
        + ((stopBase acc cr).skipped_checks + rest.length)
        = sumCounts acc + 1 + rest.length
      have hs := stopBase_sum acc cr
      unfold sumCounts at hs ⊢
      omega
    · exact stopBase_total acc cr

theorem finalizeStageResult_counters (r : ReadinessStageResult) (n : String) :
    sumCounts (finalizeStageResult r n) = sumCounts r
    ∧ (finalizeStageResult r n).check_results = r.check_results
    ∧ (finalizeStageResult r n).total_checks = r.total_checks := by
  unfold finalizeStageResult
  split_ifs <;> exact ⟨rfl, rfl, rfl⟩

theorem runChecksLoop_invariant (stage : ReadinessStage) :
    ∀ rest : List ReadinessCheck, ∀ (pre : List ReadinessCheck)
      (acc r : ReadinessStageResult),
      stage.checks = pre ++ rest →
      (∀ x ∈ pre, ∃ cr, executeSingleCheck x stage.name "" 0 = Except.ok cr
          ∧ (processCheckResult x cr stage.name stage.fail_fast).1 = false) →
      sumCounts acc = pre.length →
      acc.check_results.length = pre.length →
      acc.total_checks = stage.checks.length →
      runChecksLoop stage rest acc = Except.ok r →
      sumCounts r = stage.checks.length
        ∧ r.check_results.length = stage.checks.length
        ∧ r.total_checks = stage.checks.length := by
  intro rest
  induction rest with
  | nil =>
    intro pre acc r hchecks hpre hsum hlen htot hloop
    have hr : acc = r := by
      have : Except.ok (ε := PyExc) acc = Except.ok r := hloop
      exact Except.ok.inj this
    have hplen : stage.checks.length = pre.length := by
      rw [hchecks, List.append_nil]
    subst hr
    exact ⟨by rw [hsum, hplen], by rw [hlen, hplen], htot⟩
  | cons c rest ih =>
    intro pre acc r hchecks hpre hsum hlen htot hloop
    cases hoc : executeSingleCheck c stage.name "" 0 with
    | error e =>
      rw [runChecksLoop_cons_error stage c rest acc e hoc] at hloop
      cases hloop
    | ok cr =>
      cases hsd : (processCheckResult c cr stage.name stage.fail_fast).1 with
      | false =>
        rw [runChecksLoop_cons_noStop stage c rest acc cr hoc hsd] at hloop
        obtain ⟨ha1, ha2, ha3⟩ := accumulateCheck_props stage acc c cr hoc
        refine ih (pre ++ [c]) (accumulateCheck stage acc c) r ?_ ?_ ?_ ?_ ?_ hloop
        · rw [hchecks]
          simp
        · intro x hx
          rcases List.mem_append.mp hx with h1 | h2
          · exact hpre x h1
          · rw [List.mem_singleton.mp h2]
            exact ⟨cr, hoc, hsd⟩
        · rw [ha2, hsum]
          simp
        · rw [ha1]
          simp [hlen]
        · rw [ha3, htot]
      | true =>
        rw [runChecksLoop_cons_stop stage c rest acc cr hoc hsd] at hloop
        have hr : stopUpdate stage c cr acc = r := Except.ok.inj hloop
        have hne : ∀ x ∈ pre, x ≠ c :=
          pre_ne_of_noStop stage pre c cr hpre hoc hsd
        obtain ⟨_, _, hcrs, hsump, htotp⟩ :=
          stopUpdate_fields stage c cr acc pre rest hchecks hne
        have hN : stage.checks.length = pre.length + 1 + rest.length := by
          rw [hchecks]
          simp
          omega
        subst hr
        refine ⟨?_, ?_, ?_⟩
        · rw [hsump, hsum, hN]
        · rw [hcrs]
          simp [hlen, hN]
          omega
        · rw [htotp, htot]

/-- C4: whenever `Stage.execute()` freshly computes a `StageResult`
(i.e. `_execute_stage` returns without an uncaught exception), the
result satisfies
`successful_checks + failed_checks + skipped_checks = total_checks`
and `total_checks = len(check_results)`, backfilled skips included. -/
theorem c4_stage_counters_invariant (stage : ReadinessStage)
    (r : ReadinessStageResult) (h : execStage stage = Except.ok r) :
    r.successful_checks + r.failed_checks + r.skipped_checks = r.total_checks
    ∧ r.total_checks = r.check_results.length := by
  unfold execStage at h
  cases hloop : runChecksLoop stage stage.checks (initStageResult stage) with
  | error e =>
    rw [hloop] at h
    cases h
  | ok r0 =>
    rw [hloop] at h
    have hr : finalizeStageResult r0 stage.name = r := Except.ok.inj h
    obtain ⟨hs, hl, ht⟩ := runChecksLoop_invariant stage stage.checks []
      (initStageResult stage) r0 rfl (by intro x hx; cases hx) rfl rfl rfl hloop
    obtain ⟨hf1, hf2, hf3⟩ := finalizeStageResult_counters r0 stage.name
    subst hr
    constructor
    · show sumCounts (finalizeStageResult r0 stage.name) = _
      rw [hf1, hf3, hs, ht]
    · rw [hf2, hf3, ht, hl]

/-- A concrete stage for the C4 witness: a failing critical check
followed by an unexecuted check, exercising the backfill path. -/
def sampleStage : ReadinessStage :=
  { name := "db"
    checks :=
      [ { name := "init", is_critical := true
          behavior := Except.ok
            { status := .failed, message := "no db", check_name := "init" } },
        { name := "health"
          behavior := Except.ok
            { status := .success, message := "up", check_name := "health" } } ] }

/-- Witness for C4 on `sampleStage`. -/
theorem c4_witness :
    (stageResultOf sampleStage).successful_checks
        + (stageResultOf sampleStage).failed_checks
        + (stageResultOf sampleStage).skipped_checks
      = (stageResultOf sampleStage).total_checks
    ∧ (stageResultOf sampleStage).total_checks
      = (stageResultOf sampleStage).check_results.length :=
  c4_stage_counters_invariant sampleStage (stageResultOf sampleStage)
    (by decide)

theorem finalize_of_ne_running (r : ReadinessStageResult) (n : String)
    (h : r.status ≠ CheckStatus.running) : finalizeStageResult r n = r := by
  unfold finalizeStageResult
  rw [if_neg h]

theorem stopStatusOf_ne_running (stage : ReadinessStage)
    (c : ReadinessCheck) (cr : ReadinessCheckResult) :
    stopStatusOf stage c cr ≠ CheckStatus.running := by
  unfold stopStatusOf
  split_ifs <;> simp

theorem stopUpdate_eq (stage : ReadinessStage) (c : ReadinessCheck)
    (cr : ReadinessCheckResult) (acc : ReadinessStageResult)
    (pre rest : List ReadinessCheck)
    (hchecks : stage.checks = pre ++ c :: rest)
    (hne : ∀ x ∈ pre, x ≠ c) :
    stopUpdate stage c cr acc
      = { stopBase acc cr with
          status := stopStatusOf stage c cr
          message := (processCheckResult c cr stage.name stage.fail_fast).2
          check_results := (stopBase acc cr).check_results
            ++ rest.map (fun c2 =>
                skippedCheckResult c2.name stage.name (stopSkipReason stage c cr))
          skipped_checks := (stopBase acc cr).skipped_checks + rest.length } := by
  by_cases hcs : strContains
      (pyLowerStr (processCheckResult c cr stage.name stage.fail_fast).2)
      "skipped" = true
  · have hstat : stopStatusOf stage c cr = CheckStatus.skipped := by
      unfold stopStatusOf
      rw [if_pos hcs]
    have hsrr : stopSkipReason stage c cr = "due to stage skip" := by
      unfold stopSkipReason
      rw [hstat, if_pos rfl]
    have hval : stopUpdate stage c cr acc
        = markRemainingChecksSkipped
            { stopBase acc cr with
                status := CheckStatus.skipped
                message := (processCheckResult c cr stage.name stage.fail_fast).2 }
            c stage.checks stage.name "due to stage skip" := by
      unfold stopUpdate stopBase
      simp [hcs]
    rw [hchecks, markRemaining_eq _ c pre rest _ _ hne] at hval
    rw [hval, hstat, hsrr]
  · have hcs' : strContains
        (pyLowerStr (processCheckResult c cr stage.name stage.fail_fast).2)
        "skipped" = false := by
      rw [← Bool.not_eq_true]
      exact hcs
    have hstat : stopStatusOf stage c cr = CheckStatus.failed := by
      unfold stopStatusOf
      rw [if_neg hcs]
    have hsrr : stopSkipReason stage c cr = "due to fail-fast" := by
      unfold stopSkipReason
      rw [hstat]
      rfl
    have hval : stopUpdate stage c cr acc
        = markRemainingChecksSkipped
            { stopBase acc cr with
                status := CheckStatus.failed
                message := (processCheckResult c cr stage.name stage.fail_fast).2 }
            c stage.checks stage.name "due to fail-fast" := by
      unfold stopUpdate stopBase
      simp [hcs']
    rw [hchecks, markRemaining_eq _ c pre rest _ _ hne] at hval
    rw [hval, hstat, hsrr]

theorem execStage_stop_value (stage : ReadinessStage)
    (pre rest : List ReadinessCheck) (c : ReadinessCheck)
    (cr : ReadinessCheckResult)
    (hchecks : stage.checks = pre ++ c :: rest)
    (hpre : ∀ x ∈ pre, ∃ cr0, executeSingleCheck x stage.name "" 0 = Except.ok cr0
        ∧ (processCheckResult x cr0 stage.name stage.fail_fast).1 = false)
    (hok : executeSingleCheck c stage.name "" 0 = Except.ok cr)
    (hstop : (processCheckResult c cr stage.name stage.fail_fast).1 = true) :
    execStage stage = Except.ok
      (stopUpdate stage c cr
        (pre.foldl (accumulateCheck stage) (initStageResult stage))) := by
  have hne : ∀ x ∈ pre, x ≠ c := pre_ne_of_noStop stage pre c cr hpre hok hstop
  have hnr : (stopUpdate stage c cr
      (pre.foldl (accumulateCheck stage) (initStageResult stage))).status
      ≠ CheckStatus.running := by
    rw [(stopUpdate_fields stage c cr _ pre rest hchecks hne).1]
    exact stopStatusOf_ne_running stage c cr
  unfold execStage
  conv_lhs => rw [hchecks]
  rw [runChecksLoop_over_pre stage pre hpre (c :: rest) (initStageResult stage),
    runChecksLoop_cons_stop stage c rest _ cr hok hstop]
  show Except.ok (finalizeStageResult _ stage.name) = _
  rw [finalize_of_ne_running _ _ hnr]

theorem execStage_stop_eq (stage : ReadinessStage)
    (pre rest : List ReadinessCheck) (c : ReadinessCheck)
    (cr : ReadinessCheckResult)
    (hchecks : stage.checks = pre ++ c :: rest)
    (hpre : ∀ x ∈ pre, ∃ cr0, executeSingleCheck x stage.name "" 0 = Except.ok cr0
        ∧ (processCheckResult x cr0 stage.name stage.fail_fast).1 = false)
    (hok : executeSingleCheck c stage.name "" 0 = Except.ok cr)
    (hstop : (processCheckResult c cr stage.name stage.fail_fast).1 = true) :
    execStage stage = Except.ok
      { stopBase (pre.foldl (accumulateCheck stage) (initStageResult stage)) cr with
          status := stopStatusOf stage c cr
          message := (processCheckResult c cr stage.name stage.fail_fast).2
          check_results :=
            (stopBase (pre.foldl (accumulateCheck stage) (initStageResult stage))
              cr).check_results
            ++ rest.map (fun c2 =>
                skippedCheckResult c2.name stage.name (stopSkipReason stage c cr))
          skipped_checks :=
            (stopBase (pre.foldl (accumulateCheck stage) (initStageResult stage))
              cr).skipped_checks + rest.length } := by
  have hne : ∀ x ∈ pre, x ≠ c := pre_ne_of_noStop stage pre c cr hpre hok hstop
  rw [execStage_stop_value stage pre rest c cr hchecks hpre hok hstop,
    stopUpdate_eq stage c cr _ pre rest hchecks hne]

/-! ### C6 -/

/-- C6: in a `fail_fast=true` stage, a failing non-critical check (after
any prefix of non-stopping checks) yields a `FAILED` entry followed by a
`SKIPPED` entry for every subsequent check, and the subsequent checks'
execution bodies are never invoked: the stage result is identical for
*any* replacement of the subsequent checks that keeps their names —
their `behavior` is never consulted. -/
theorem c6_fail_fast_skips_rest (stage : ReadinessStage)
    (pre rest : List ReadinessCheck) (c : ReadinessCheck)
    (cr : ReadinessCheckResult)
    (hff : stage.fail_fast = true)
    (hchecks : stage.checks = pre ++ c :: rest)
    (hpre : ∀ x ∈ pre, ∃ cr0, executeSingleCheck x stage.name "" 0 = Except.ok cr0
        ∧ (processCheckResult x cr0 stage.name stage.fail_fast).1 = false)
    (hok : executeSingleCheck c stage.name "" 0 = Except.ok cr)
    (hfail : cr.status = CheckStatus.failed)
    (hcrit : c.is_critical = false) :
    ∃ r, execStage stage = Except.ok r
      ∧ (r.check_results.drop pre.length).map (fun e => e.status)
          = CheckStatus.failed :: rest.map (fun _ => CheckStatus.skipped)
      ∧ ∀ rest2 : List ReadinessCheck,
          rest2.map ReadinessCheck.name = rest.map ReadinessCheck.name →
          execStage { stage with checks := pre ++ c :: rest2 }
            = Except.ok r := by
  have hstop : (processCheckResult c cr stage.name stage.fail_fast).1 = true := by
    unfold processCheckResult shouldStopOnFailure
    rw [hfail]
    simp [hcrit, hff]
  have hexec := execStage_stop_eq stage pre rest c cr hchecks hpre hok hstop
  have hpreOk : ∀ x ∈ pre, ∃ cr0,
      executeSingleCheck x stage.name "" 0 = Except.ok cr0 := by
    intro x hx
    obtain ⟨cr0, hok0, _⟩ := hpre x hx
    exact ⟨cr0, hok0⟩
  have hAlen : (pre.foldl (accumulateCheck stage)
      (initStageResult stage)).check_results.length = pre.length := by
    have h1 := (foldl_accumulate_props stage pre hpreOk (initStageResult stage)).1
    have h0 : (initStageResult stage).check_results.length = 0 := rfl
    rw [h0] at h1
    simpa using h1
  refine ⟨_, hexec, ?_, ?_⟩
  · show (((stopBase (pre.foldl (accumulateCheck stage) (initStageResult stage))
        cr).check_results
        ++ rest.map (fun c2 =>
            skippedCheckResult c2.name stage.name (stopSkipReason stage c cr))).drop
          pre.length).map (fun e => e.status) = _
    rw [stopBase_check_results, List.append_assoc, ← hAlen, List.drop_left,
      List.singleton_append, List.map_cons, hfail, List.map_map]
    rfl
  · intro rest2 hnames
    have hlen2 : rest2.length = rest.length := by
      rw [← List.length_map rest2 ReadinessCheck.name, hnames, List.length_map]
    have hexec2 := execStage_stop_eq { stage with checks := pre ++ c :: rest2 }
      pre rest2 c cr rfl hpre hok hstop
    rw [hexec2]
    congr 1
    have hacs : accumulateCheck { stage with checks := pre ++ c :: rest2 }
        = accumulateCheck stage := rfl
    have hinit : initStageResult { stage with checks := pre ++ c :: rest2 }
        = initStageResult stage := by
      unfold initStageResult
      have hl : ({ stage with checks := pre ++ c :: rest2 } :
          ReadinessStage).checks.length = stage.checks.length := by
        show (pre ++ c :: rest2).length = stage.checks.length
        rw [hchecks]
        simp [hlen2]
      rw [hl]
    have hmap2 : rest2.map (fun c2 =>
          skippedCheckResult c2.name stage.name (stopSkipReason stage c cr))
        = rest.map (fun c2 =>
          skippedCheckResult c2.name stage.name (stopSkipReason stage c cr)) := by
      have h2 : rest2.map ((fun nm =>
            skippedCheckResult nm stage.name (stopSkipReason stage c cr))
          ∘ ReadinessCheck.name)
          = rest.map ((fun nm =>
            skippedCheckResult nm stage.name (stopSkipReason stage c cr))
          ∘ ReadinessCheck.name) := by
        rw [← List.map_map, hnames, List.map_map]
      exact h2
    rw [hacs, hinit]
    show ({ stopBase (pre.foldl (accumulateCheck stage) (initStageResult stage))
        cr with
        status := stopStatusOf stage c cr
        message := (processCheckResult c cr stage.name stage.fail_fast).2
        check_results :=
          (stopBase (pre.foldl (accumulateCheck stage) (initStageResult stage))
            cr).check_results
          ++ rest2.map (fun c2 =>
              skippedCheckResult c2.name stage.name (stopSkipReason stage c cr))
        skipped_checks :=
          (stopBase (pre.foldl (accumulateCheck stage) (initStageResult stage))
            cr).skipped_checks + rest2.length } : ReadinessStageResult) = _
    rw [hmap2, hlen2]

/-- Checks and stage for the C6 witness: `fail_fast=true`, first check
fails (non-critical), second would succeed. -/
def ffCheckA : ReadinessCheck :=
  { name := "a"
    behavior := Except.ok
      { status := .failed, message := "down", check_name := "a" } }

def ffCheckB : ReadinessCheck :=
  { name := "b"
    behavior := Except.ok
      { status := .success, message := "up", check_name := "b" } }

def ffStage : ReadinessStage :=
  { name := "svc", checks := [ffCheckA, ffCheckB] }

/-- Witness for C6 on `ffStage`. -/
theorem c6_witness :
    ∃ r, execStage ffStage = Except.ok r
      ∧ (r.check_results.drop 0).map (fun e => e.status)
          = CheckStatus.failed :: [ffCheckB].map (fun _ => CheckStatus.skipped)
      ∧ ∀ rest2 : List ReadinessCheck,
          rest2.map ReadinessCheck.name = [ffCheckB].map ReadinessCheck.name →
          execStage { ffStage with checks := [] ++ ffCheckA :: rest2 }
            = Except.ok r :=
  c6_fail_fast_skips_rest ffStage [] [ffCheckB] ffCheckA
    { status := .failed, message := "down", check_name := "a",
      stage_name := some "svc", executed_at := some "",
      execution_time_ms := some 0 }
    rfl rfl (by intro x hx; cases hx) (by decide) rfl rfl

/-! ### C7 -/

theorem skipReason_contains_skipped (sn cn : String) :
    strContains
      (pyLowerStr
        (((("Stage \x27" ++ sn) ++ "\x27 skipped due to check \x27") ++ cn)
          ++ "\x27"))
      "skipped" = true := by
  unfold strContains pyLowerStr
  show containsSub "skipped".data
      ((((("Stage \x27" ++ sn) ++ "\x27 skipped due to check \x27") ++ cn)
        ++ "\x27").data.map Char.toLower) = true
  rw [String.data_append, String.data_append, String.data_append,
    String.data_append, List.map_append, List.map_append, List.map_append,
    List.map_append]
  have hB : containsSub "skipped".data
      ("\x27 skipped due to check \x27".data.map Char.toLower) = true := by
    decide
  exact containsSub_append_left _ _ _
    (containsSub_append_left _ _ _
      (containsSub_append_right _
        ("Stage \x27".data.map Char.toLower ++ sn.data.map Char.toLower) _ hB))

/-- A critical check whose *name* contains the word `skipped`. -/
def trickCheck : ReadinessCheck :=
  { name := "skipped_marker"
    is_critical := true
    behavior := Except.ok
      { status := .failed, message := "bad", check_name := "skipped_marker" } }

/-- A stage holding `trickCheck`. -/
def trickStage : ReadinessStage :=
  { name := "db", checks := [trickCheck] }

/-- C7 counterexample: the claim says a stop triggered by a
critical-check failure gives the stage status `FAILED` for *every* stage
name and check name; but the status is chosen by searching the stop
reason for the substring `"skipped"`, and the reason embeds the check
name.  With the critical check named `skipped_marker` failing, the
reason `"Critical check 'skipped_marker' failed in stage 'db'"` contains
`"skipped"`, so the stage status is `SKIPPED`, not `FAILED`. -/
theorem c7_counterexample_status_substring :
    (execStage trickStage).toOption.map (fun r => r.status)
        = some CheckStatus.skipped
    ∧ (execStage trickStage).toOption.map (fun r => r.status)
        ≠ some CheckStatus.failed := by
  constructor
  · decide
  · decide

/-- C7 (amended): when a stage stops early, the `StageResult`'s message
is the stop reason and `mark_remaining_checks_skipped` backfills the
unexecuted checks; the status is `SKIPPED` for a `SKIP_STAGE`-triggered
stop (whose reason always contains `"skipped"`), and `FAILED` for a
critical/fail-fast-triggered stop *provided* the lowered stop reason
(which embeds the stage and check names) does not contain the substring
`"skipped"` — the implementation derives the status from that substring
test, not from the stop kind. -/
theorem c7_stop_status_amended (stage : ReadinessStage)
    (pre rest : List ReadinessCheck) (c : ReadinessCheck)
    (cr : ReadinessCheckResult)
    (hchecks : stage.checks = pre ++ c :: rest)
    (hpre : ∀ x ∈ pre, ∃ cr0, executeSingleCheck x stage.name "" 0 = Except.ok cr0
        ∧ (processCheckResult x cr0 stage.name stage.fail_fast).1 = false)
    (hok : executeSingleCheck c stage.name "" 0 = Except.ok cr)
    (hstop : (processCheckResult c cr stage.name stage.fail_fast).1 = true)
    (hclean : cr.status = CheckStatus.skipStage
        ∨ strContains
            (pyLowerStr (processCheckResult c cr stage.name stage.fail_fast).2)
            "skipped" = false) :
    ∃ r, execStage stage = Except.ok r
      ∧ r.message = (processCheckResult c cr stage.name stage.fail_fast).2
      ∧ r.status = (if cr.status = CheckStatus.skipStage then CheckStatus.skipped
          else CheckStatus.failed)
      ∧ r.check_results.drop (pre.length + 1)
          = rest.map (fun c2 => skippedCheckResult c2.name stage.name
              (if cr.status = CheckStatus.skipStage then "due to stage skip"
               else "due to fail-fast")) := by
  have hexec := execStage_stop_eq stage pre rest c cr hchecks hpre hok hstop
  have hpreOk : ∀ x ∈ pre, ∃ cr0,
      executeSingleCheck x stage.name "" 0 = Except.ok cr0 := by
    intro x hx
    obtain ⟨cr0, hok0, _⟩ := hpre x hx
    exact ⟨cr0, hok0⟩
  have hAlen : (pre.foldl (accumulateCheck stage)
      (initStageResult stage)).check_results.length = pre.length := by
    have h1 := (foldl_accumulate_props stage pre hpreOk (initStageResult stage)).1
    have h0 : (initStageResult stage).check_results.length = 0 := rfl
    rw [h0] at h1
    simpa using h1
  have hlen' : ((pre.foldl (accumulateCheck stage)
      (initStageResult stage)).check_results ++ [cr]).length
      = pre.length + 1 := by
    simp [hAlen]
  by_cases hsk : cr.status = CheckStatus.skipStage
  · have hreason : (processCheckResult c cr stage.name stage.fail_fast).2
        = ((("Stage \x27" ++ stage.name) ++ "\x27 skipped due to check \x27")
            ++ c.name) ++ "\x27" := by
      unfold processCheckResult
      rw [hsk]
      simp
    have hcontains := skipReason_contains_skipped stage.name c.name
    have hstat : stopStatusOf stage c cr = CheckStatus.skipped := by
      unfold stopStatusOf
      rw [hreason, hcontains]
      rw [if_pos rfl]
    have hsrr : stopSkipReason stage c cr = "due to stage skip" := by
      unfold stopSkipReason
      rw [hstat, if_pos rfl]
    refine ⟨_, hexec, rfl, ?_, ?_⟩
    · show stopStatusOf stage c cr = _
      rw [hstat, hsk, if_pos rfl]
    · show (((stopBase (pre.foldl (accumulateCheck stage) (initStageResult stage))
          cr).check_results
          ++ rest.map (fun c2 =>
              skippedCheckResult c2.name stage.name (stopSkipReason stage c cr))).drop
            (pre.length + 1)) = _
      rw [stopBase_check_results, ← hlen', List.drop_left, hsrr, hsk, if_pos rfl]
  · have hcsf : strContains
        (pyLowerStr (processCheckResult c cr stage.name stage.fail_fast).2)
        "skipped" = false := by
      rcases hclean with h1 | h2
      · exact absurd h1 hsk
      · exact h2
    have hstat : stopStatusOf stage c cr = CheckStatus.failed := by
      unfold stopStatusOf
      rw [hcsf]
      rfl
    have hsrr : stopSkipReason stage c cr = "due to fail-fast" := by
      unfold stopSkipReason
      rw [hstat]
      rfl
    refine ⟨_, hexec, rfl, ?_, ?_⟩
    · show stopStatusOf stage c cr = _
      rw [hstat, if_neg hsk]
    · show (((stopBase (pre.foldl (accumulateCheck stage) (initStageResult stage))
          cr).check_results
          ++ rest.map (fun c2 =>
              skippedCheckResult c2.name stage.name (stopSkipReason stage c cr))).drop
            (pre.length + 1)) = _
      rw [stopBase_check_results, ← hlen', List.drop_left, hsrr, if_neg hsk]

/-- Checks and stage for the C7 witness: a critical failing check with a
clean name, followed by a check that gets backfilled. -/
def critCheck : ReadinessCheck :=
  { name := "conn"
    is_critical := true
    behavior := Except.ok
      { status := .failed, message := "refused", check_name := "conn" } }

def afterCheck : ReadinessCheck :=
  { name := "schema"
    behavior := Except.ok
      { status := .success, message := "ok", check_name := "schema" } }

def critStage : ReadinessStage :=
  { name := "db", checks := [critCheck, afterCheck] }

/-- The stamped result `execute_single_check` produces for `critCheck`
inside `critStage` (the abstract timestamp parameters are `""` and
`0`). -/
def crConn : ReadinessCheckResult :=
  { status := .failed, message := "refused", check_name := "conn",
    stage_name := some "db", executed_at := some "",
    execution_time_ms := some 0 }

/-- Witness for C7 (amended) on `critStage`: a critical-check failure
with clean names yields stage status `FAILED`, the stop reason as
message, and a backfilled `SKIPPED` entry. -/
theorem c7_witness :
    ∃ r, execStage critStage = Except.ok r
      ∧ r.message = (processCheckResult critCheck crConn critStage.name
          critStage.fail_fast).2
      ∧ r.status = (if crConn.status = CheckStatus.skipStage then
            CheckStatus.skipped
          else CheckStatus.failed)
      ∧ r.check_results.drop (List.length ([] : List ReadinessCheck) + 1)
          = [afterCheck].map (fun c2 => skippedCheckResult c2.name critStage.name
              (if crConn.status = CheckStatus.skipStage then "due to stage skip"
               else "due to fail-fast")) :=
  c7_stop_status_amended critStage [] [afterCheck] critCheck crConn
    rfl (by intro x hx; cases hx) (by decide) (by decide)
    (Or.inr (by decide))

/-! ### Pipeline-executor infrastructure -/

theorem stageResultOf_eq (s : ReadinessStage) (r : ReadinessStageResult)
    (h : execStage s = Except.ok r) : stageResultOf s = r := by
  unfold stageResultOf
  rw [h]

theorem runStagesLoop_cons_ok_noCrit (all : List ReadinessStage)
    (s : ReadinessStage) (rest : List ReadinessStage)
    (acc : ReadinessPipelineResult) (r : ReadinessStageResult)
    (hok : execStage s = Except.ok r)
    (hnot : ¬(s.is_critical = true ∧ r.status = CheckStatus.failed)) :
    runStagesLoop all (s :: rest) acc
      = runStagesLoop all rest
          { acc with stage_results := acc.stage_results ++ [r] } := by
  have hcond : (s.is_critical && r.status == CheckStatus.failed) = false := by
    cases hc : s.is_critical with
    | false => rfl
    | true =>
      have hrs : r.status ≠ CheckStatus.failed := fun hf => hnot ⟨hc, hf⟩
      simp [hrs]
  conv_lhs => rw [runStagesLoop, hok]
  simp [hcond]

theorem runStagesLoop_cons_crit (all : List ReadinessStage)
    (s : ReadinessStage) (rest : List ReadinessStage)
    (acc : ReadinessPipelineResult) (r : ReadinessStageResult)
    (hok : execStage s = Except.ok r)
    (hcrit : s.is_critical = true) (hfail : r.status = CheckStatus.failed) :
    runStagesLoop all (s :: rest) acc
      = markRemainingStagesSkipped
          { acc with
              stage_results := acc.stage_results ++ [r]
              overall_status := .failed
              server_state := .error
              message := "Critical stage \x27" ++ s.name ++ "\x27 failed" }
          s all := by
  conv_lhs => rw [runStagesLoop, hok]
  simp [hcrit, hfail]

theorem markStages_eq (res : ReadinessPipelineResult) (b : ReadinessStage)
    (pre post : List ReadinessStage) (hne : ∀ x ∈ pre, x ≠ b) :
    markRemainingStagesSkipped res b (pre ++ b :: post)
      = { res with stage_results := res.stage_results
          ++ post.map skippedStageResult } := by
  unfold markRemainingStagesSkipped
  rw [firstIdx_append b pre post hne]
  show ({ res with stage_results := res.stage_results
      ++ ((pre ++ b :: post).drop (pre.length + 1)).map skippedStageResult } :
      ReadinessPipelineResult) = _
  rw [drop_append_cons]

theorem runStagesLoop_over_pre (all : List ReadinessStage) :
    ∀ pre : List ReadinessStage,
      (∀ s ∈ pre, ∃ r, execStage s = Except.ok r
          ∧ ¬(s.is_critical = true ∧ r.status = CheckStatus.failed)) →
      ∀ (rest : List ReadinessStage) (acc : ReadinessPipelineResult),
        runStagesLoop all (pre ++ rest) acc
          = runStagesLoop all rest
              { acc with stage_results := acc.stage_results
                  ++ pre.map stageResultOf } := by
  intro pre
  induction pre with
  | nil => intro _ rest acc; simp
  | cons s pre ih =>
    intro hpre rest acc
    obtain ⟨r, hok, hnot⟩ := hpre s (by simp)
    rw [List.cons_append,
      runStagesLoop_cons_ok_noCrit all s (pre ++ rest) acc r hok hnot,
      ih (fun x hx => hpre x (by simp [hx])) rest _]
    congr 1
    simp [stageResultOf_eq s r hok]

theorem runStagesLoop_all_ok (all : List ReadinessStage) :
    ∀ ss : List ReadinessStage,
      (∀ s ∈ ss, ∃ r, execStage s = Except.ok r
          ∧ ¬(s.is_critical = true ∧ r.status = CheckStatus.failed)) →
      ∀ acc : ReadinessPipelineResult,
        runStagesLoop all ss acc
          = { acc with stage_results := acc.stage_results
              ++ ss.map stageResultOf } := by
  intro ss
  induction ss with
  | nil =>
    intro _ acc
    have h : acc.stage_results ++ ([] : List ReadinessStage).map stageResultOf
        = acc.stage_results := by simp
    rw [h]
    rfl
  | cons s ss ih =>
    intro hss acc
    obtain ⟨r, hok, hnot⟩ := hss s (by simp)
    rw [runStagesLoop_cons_ok_noCrit all s ss acc r hok hnot,
      ih (fun x hx => hss x (by simp [hx])) _]
    congr 1
    simp [stageResultOf_eq s r hok]

/-! ### C2 -/

/-- C2: a critical stage whose execution result is `FAILED` short-circuits
`execute_pipeline`: `overall_status=FAILED`, `server_state=ERROR`, the
message names the failing stage, every stage after it is appended as a
synthetic `SKIPPED` stage result (`skippedStageResult`, which carries
`total_checks = skipped_checks = len(stage.checks)` and executes no
check), no further stage is executed, and the stages before the failed
one keep their own execution results. -/
theorem c2_critical_stage_short_circuit (pre post : List ReadinessStage)
    (b : ReadinessStage) (rb : ReadinessStageResult)
    (hpre : ∀ s ∈ pre, ∃ r, execStage s = Except.ok r
        ∧ ¬(s.is_critical = true ∧ r.status = CheckStatus.failed))
    (hb : execStage b = Except.ok rb)
    (hcrit : b.is_critical = true)
    (hfail : rb.status = CheckStatus.failed) :
    (executePipeline (pre ++ b :: post)).overall_status = CheckStatus.failed
    ∧ (executePipeline (pre ++ b :: post)).server_state = ServerState.error
    ∧ (executePipeline (pre ++ b :: post)).message
        = "Critical stage \x27" ++ b.name ++ "\x27 failed"
    ∧ (executePipeline (pre ++ b :: post)).stage_results
        = pre.map stageResultOf ++ rb :: post.map skippedStageResult := by
  have hne : ∀ s ∈ pre, s ≠ b := by
    intro s hs heq
    obtain ⟨r, hok, hnot⟩ := hpre s hs
    rw [heq, hb, Except.ok.injEq] at hok
    refine hnot ⟨by rw [heq, hcrit], ?_⟩
    rw [← hok]
    exact hfail
  unfold executePipeline
  rw [runStagesLoop_over_pre (pre ++ b :: post) pre hpre (b :: post)
      initPipelineResult,
    runStagesLoop_cons_crit (pre ++ b :: post) b post _ rb hb hcrit hfail,
    markStages_eq _ b pre post hne]
  refine ⟨rfl, rfl, rfl, ?_⟩
  show ((initPipelineResult.stage_results ++ pre.map stageResultOf) ++ [rb])
      ++ post.map skippedStageResult
      = pre.map stageResultOf ++ rb :: post.map skippedStageResult
  have h0 : initPipelineResult.stage_results = [] := rfl
  rw [h0]
  simp

/-- Stages for the C2 and C10 witnesses. -/
def stageA : ReadinessStage := { name := "prep", checks := [ffCheckB] }

def stageB : ReadinessStage :=
  { name := "core", is_critical := true, checks := [ffCheckA] }

def stageC : ReadinessStage := { name := "extra", checks := [] }

/-- Witness for C2 on `[stageA, stageB, stageC]` (non-critical success,
critical failure, then a stage that must be skipped). -/
theorem c2_witness :
    (executePipeline ([stageA] ++ stageB :: [stageC])).overall_status
        = CheckStatus.failed
    ∧ (executePipeline ([stageA] ++ stageB :: [stageC])).server_state
        = ServerState.error
    ∧ (executePipeline ([stageA] ++ stageB :: [stageC])).message
        = "Critical stage \x27" ++ stageB.name ++ "\x27 failed"
    ∧ (executePipeline ([stageA] ++ stageB :: [stageC])).stage_results
        = [stageA].map stageResultOf
          ++ stageResultOf stageB :: [stageC].map skippedStageResult :=
  c2_critical_stage_short_circuit [stageA] [stageC] stageB
    (stageResultOf stageB)
    (by
      intro s hs
      rw [List.mem_singleton] at hs
      subst hs
      exact ⟨stageResultOf stageA, by decide, by decide⟩)
    (by decide) rfl (by decide)

/-! ### C10 -/

/-- C10: a critical stage whose result is `SKIPPED` (a skip-stage signal
inside a critical stage) does not short-circuit the pipeline: as long as
no stage is critical-and-`FAILED` (and none raises), every stage is
executed and appended, and the executor leaves `overall_status=RUNNING`
and `server_state=CHECKING` — in particular the skipped critical stage
does not set `ERROR`.  The short-circuit fires only on status exactly
`FAILED`. -/
theorem c10_critical_skip_no_short_circuit (pre post : List ReadinessStage)
    (b : ReadinessStage) (rb : ReadinessStageResult)
    (hall : ∀ s ∈ pre ++ b :: post, ∃ r, execStage s = Except.ok r
        ∧ ¬(s.is_critical = true ∧ r.status = CheckStatus.failed))
    (hb : execStage b = Except.ok rb)
    (hcrit : b.is_critical = true)
    (hskip : rb.status = CheckStatus.skipped) :
    (executePipeline (pre ++ b :: post)).stage_results
        = (pre ++ b :: post).map stageResultOf
    ∧ (executePipeline (pre ++ b :: post)).overall_status
        = CheckStatus.running
    ∧ (executePipeline (pre ++ b :: post)).server_state
        = ServerState.checking := by
  unfold executePipeline
  rw [runStagesLoop_all_ok (pre ++ b :: post) (pre ++ b :: post) hall
    initPipelineResult]
  refine ⟨?_, rfl, rfl⟩
  show initPipelineResult.stage_results ++ (pre ++ b :: post).map stageResultOf
      = (pre ++ b :: post).map stageResultOf
  have h0 : initPipelineResult.stage_results = [] := rfl
  rw [h0]
  simp

/-- A critical stage that signals `SKIP_STAGE`, for the C10 witness. -/
def skipCheck : ReadinessCheck :=
  { name := "flag"
    behavior := Except.ok
      { status := .skipStage, message := "not configured",
        check_name := "flag" } }

def stageS : ReadinessStage :=
  { name := "opt", is_critical := true, checks := [skipCheck] }

/-- Witness for C10 on `[stageA, stageS, stageC]` (the critical middle
stage is skipped, the pipeline continues). -/
theorem c10_witness :
    (executePipeline ([stageA] ++ stageS :: [stageC])).stage_results
        = ([stageA] ++ stageS :: [stageC]).map stageResultOf
    ∧ (executePipeline ([stageA] ++ stageS :: [stageC])).overall_status
        = CheckStatus.running
    ∧ (executePipeline ([stageA] ++ stageS :: [stageC])).server_state
        = ServerState.checking :=
  c10_critical_skip_no_short_circuit [stageA] [stageC] stageS
    (stageResultOf stageS)
    (by
      intro s hs
      simp only [List.cons_append, List.nil_append, List.mem_cons,
        List.mem_singleton] at hs
      rcases hs with h1 | h2 | h3 | h4
      · subst h1
        exact ⟨stageResultOf stageA, by decide, by decide⟩
      · subst h2
        exact ⟨stageResultOf stageS, by decide, by decide⟩
      · subst h3
        exact ⟨stageResultOf stageC, by decide, by decide⟩
      · cases h4)
    (by decide) rfl (by decide)

end ReadinessPipelineModel
